import Mathlib

/-!
Shallow embedding of the geometry kernel of the reviewed repository
(`pyautocad/types.py` and `pyautocad/entities.py`).

Modelling conventions:
* Python `float` and `decimal.Decimal` values are modelled as exact
  rationals `ℚ` (the claims under study do not depend on rounding or on
  the numeric tower distinctions between `int`, `float` and `Decimal`).
* `math.sqrt` is modelled as `Real.sqrt`, so magnitudes live in `ℝ`.
* A raised Python exception is an `Except`/`PyOut` error value; the
  `NotImplemented` sentinel returned by binary-operator methods is the
  dedicated `PyOut.notImpl` constructor.
* Dynamically typed arguments are values of the inductive `PyVal`.
-/

deriving instance DecidableEq for Except

namespace PyAutoCAD

/-- The Python exception kinds that the embedded code can raise.
`invalidOperation` is `decimal.InvalidOperation`, a subclass of
`ArithmeticError` (it is *not* a `ValueError`). -/
inductive PyErr where
  | typeError
  | valueError
  | invalidOperation
  | zeroDivisionError
deriving DecidableEq, Repr

/-- Result of a Python binary-operator method: a returned value, the
`NotImplemented` sentinel, or a raised exception. -/
inductive PyOut (α : Type) where
  | val (a : α)
  | notImpl
  | exc (e : PyErr)
deriving DecidableEq, Repr

/-- `APoint` (types.py): a 3D point backed by `array.array('d')`,
i.e. exactly three double components. -/
@[ext]
structure APoint where
  x : ℚ
  y : ℚ
  z : ℚ
deriving DecidableEq, Repr

/-- `Vector` (types.py): coordinates are a tuple of `Decimal`s, plus the
equality tolerance `self.error`.  `self.dimension` is derived below. -/
structure Vector where
  coordinates : List ℚ
  error : ℚ
deriving DecidableEq, Repr

/-- `self.dimension = len(self.coordinates)`. -/
def Vector.dimension (v : Vector) : ℕ := v.coordinates.length

/-- Default value of the `error` keyword argument of `Vector.__init__`:
`1e10`. -/
def defaultVectorError : ℚ := 10000000000

/-- A dynamically typed Python value, covering the argument shapes the
embedded methods inspect with `isinstance`. -/
inductive PyVal where
  | none
  | num (q : ℚ)
  | str (s : String)
  | apoint (p : APoint)
  | vec (v : Vector)
  | arr (xs : List ℚ)
  | list (xs : List PyVal)
  | tuple (xs : List PyVal)

mutual

/-- Whether a value is legal as the second argument of `isinstance`:
it must be a type or a (recursively nested) tuple of such.  No value in
our universe is a Python type object, so only nested tuples qualify;
`isinstance` raises `TypeError` on anything else, and answers `False`
when the classinfo is a nested tuple containing no types. -/
def validClassinfo : PyVal → Bool
  | .tuple xs => validClassinfoList xs
  | _ => false

/-- Classinfo validity for the elements of a tuple classinfo. -/
def validClassinfoList : List PyVal → Bool
  | [] => true
  | x :: xs => validClassinfo x && validClassinfoList xs

end

/-- Conversion of one Python value to a C double, as done for each item
by the `array.array('d', initializer)` constructor: numbers convert,
anything else raises `TypeError`. -/
def toDouble : PyVal → Except PyErr ℚ
  | .num q => .ok q
  | _ => .error .typeError

/-- `APoint.type_check(t)`:
`isinstance(t, (array.array, list, tuple)) and len(t) == 3`.
An `APoint` is itself an `array.array` of length 3. -/
def APoint.typeCheck : PyVal → Bool
  | .apoint _ => true
  | .arr xs => xs.length == 3
  | .list xs => xs.length == 3
  | .tuple xs => xs.length == 3
  | _ => false

/-- `APoint.__new__(cls, x_or_seq, y=0.0, z=0.0)`:
if `type_check(x_or_seq)` passes, build `array.array('d', x_or_seq)`
(each of the three items must be a number, else `TypeError`);
otherwise build `array.array('d', (x_or_seq, y, z))`, which raises
`TypeError` unless `x_or_seq` is itself a number. -/
def APoint.new (x_or_seq : PyVal) (y z : ℚ) : Except PyErr APoint :=
  if APoint.typeCheck x_or_seq then
    match x_or_seq with
    | .apoint p => .ok p
    | .arr [a, b, c] => .ok ⟨a, b, c⟩
    | .list [a, b, c] | .tuple [a, b, c] => do
        let qa ← toDouble a
        let qb ← toDouble b
        let qc ← toDouble c
        .ok ⟨qa, qb, qc⟩
    | _ => .error .typeError
  else
    match x_or_seq with
    | .num q => .ok ⟨q, y, z⟩
    | _ => .error .typeError

/-- The three components of an `APoint`, i.e. Python `tuple(self)`. -/
def APoint.toList (p : APoint) : List ℚ := [p.x, p.y, p.z]

/-- `APoint.__left_op(self, p1, p2, op)` for a sequence operand `p2`:
`APoint(op(p1[0], p2[0]), op(p1[1], p2[1]), op(p1[2], p2[2]))`.
Applying `op` to a float and a non-number raises `TypeError`. -/
def APoint.leftOpSeq (p : APoint) (other : PyVal) (op : ℚ → ℚ → ℚ) :
    Except PyErr APoint :=
  match other with
  | .apoint q => .ok ⟨op p.x q.x, op p.y q.y, op p.z q.z⟩
  | .arr [a, b, c] => .ok ⟨op p.x a, op p.y b, op p.z c⟩
  | .list [a, b, c] | .tuple [a, b, c] => do
      let qa ← toDouble a
      let qb ← toDouble b
      let qc ← toDouble c
      .ok ⟨op p.x qa, op p.y qb, op p.z qc⟩
  | _ => .error .typeError

/-- Lift an `Except` result into a binary-operator result. -/
def liftExc {α : Type} : Except PyErr α → PyOut α
  | .ok a => .val a
  | .error e => .exc e

/-- `APoint.__add__`: componentwise sum via `__left_op` when
`type_check(other)` passes, else `NotImplemented`. -/
def APoint.add (p : APoint) (other : PyVal) : PyOut APoint :=
  if APoint.typeCheck other then liftExc (p.leftOpSeq other (fun a b => a + b))
  else .notImpl

/-- `APoint.__sub__`: componentwise difference via `__left_op` when
`type_check(other)` passes, else `NotImplemented`. -/
def APoint.sub (p : APoint) (other : PyVal) : PyOut APoint :=
  if APoint.typeCheck other then liftExc (p.leftOpSeq other (fun a b => a - b))
  else .notImpl

/-- `APoint.__rsub__` is the very same function object as `__sub__`
(the class body has `__rsub__ = __sub__`). -/
def APoint.rsub : APoint → PyVal → PyOut APoint := APoint.sub

/-- `APoint.__mul__`: only an `int`/`float` scalar is accepted;
componentwise scale via `__left_op`, else `NotImplemented`. -/
def APoint.mul (p : APoint) (other : PyVal) : PyOut APoint :=
  match other with
  | .num s => .val ⟨p.x * s, p.y * s, p.z * s⟩
  | _ => .notImpl

/-- `APoint.__neg__`: `self.__left_op(self, -1, operator.mul)`. -/
def APoint.neg (p : APoint) : APoint :=
  ⟨p.x * (-1), p.y * (-1), p.z * (-1)⟩

/-- Python `==` between one float component and an arbitrary value:
true only for an equal number (comparison with a non-number is `False`,
not an error). -/
def pyNumEq (q : ℚ) : PyVal → Bool
  | .num r => q == r
  | _ => false

/-- Python tuple equality `tuple(self) == tuple(other)` between the
float components of a point and an arbitrary value sequence: equal
lengths and pairwise `==`. -/
def pySeqEq : List ℚ → List PyVal → Bool
  | [], [] => true
  | p :: ps, x :: xs => pyNumEq p x && pySeqEq ps xs
  | _, _ => false

/-- `APoint.__eq__(self, other)`:
`False` unless `isinstance(other, (array.array, list, tuple))`, else
`tuple(self) == tuple(other)`. -/
def APoint.beq (p : APoint) (other : PyVal) : Bool :=
  match other with
  | .apoint q => pySeqEq p.toList (q.toList.map PyVal.num)
  | .arr xs => pySeqEq p.toList (xs.map PyVal.num)
  | .list xs => pySeqEq p.toList xs
  | .tuple xs => pySeqEq p.toList xs
  | _ => false

/-- Value of a list of decimal digit characters. -/
def digitsToNat (l : List Char) : ℕ :=
  l.foldl (fun n c => n * 10 + (c.toNat - 48)) 0

/-- Parser for the integer / fixed-point fragment of the `Decimal`
string syntax: optional sign, then digits with an optional fractional
part (at least one digit overall).  `"a"` and friends do not parse. -/
def decimalParse (s : String) : Option ℚ :=
  let cs := s.toList
  let signAndRest : ℚ × List Char :=
    match cs with
    | '-' :: r => (-1, r)
    | '+' :: r => (1, r)
    | r => (1, r)
  let sign := signAndRest.1
  let rest := signAndRest.2
  let intPart := rest.takeWhile Char.isDigit
  let rest2 := rest.dropWhile Char.isDigit
  match rest2 with
  | [] =>
      if intPart.isEmpty then Option.none
      else some (sign * digitsToNat intPart)
  | '.' :: fr =>
      let fracPart := fr.takeWhile Char.isDigit
      let rest3 := fr.dropWhile Char.isDigit
      if rest3.isEmpty && !(intPart.isEmpty && fracPart.isEmpty) then
        some (sign * ((digitsToNat intPart : ℚ) +
          (digitsToNat fracPart : ℚ) / ((10 : ℚ) ^ fracPart.length)))
      else Option.none
  | _ => Option.none

/-- `Decimal(x)`: numbers convert exactly; a string is parsed as a
decimal numeral (optional sign, integer part, optional fractional part —
a simplified but faithful fragment of the `Decimal` literal syntax) and
raises `decimal.InvalidOperation` when it does not parse; other values
raise `TypeError`. -/
def pyDecimal : PyVal → Except PyErr ℚ
  | .num q => .ok q
  | .str s => match decimalParse s with
      | some q => .ok q
      | Option.none => .error .invalidOperation
  | _ => .error .typeError

/-- `[Decimal(x) for x in coordinates]`: items are converted in order
and the first failure propagates. -/
def decimalList : List PyVal → Except PyErr (List ℚ)
  | [] => .ok []
  | x :: xs =>
      match pyDecimal x with
      | .error e => .error e
      | .ok q =>
          match decimalList xs with
          | .error e => .error e
          | .ok qs => .ok (q :: qs)

/-- `Vector.__init__(self, coordinates, error=1e10)`:
an empty sequence raises `ValueError` (re-raised by the
`except ValueError` arm as "The coordinates must be nonempty"); each
item is converted with `Decimal`, whose `InvalidOperation` failure is
*not* caught by the `except ValueError`/`except TypeError` arms and so
propagates; on success the tolerance `error` is stored unchanged. -/
def Vector.init (coordinates : List PyVal) (error : ℚ) : Except PyErr Vector :=
  if coordinates.isEmpty then .error .valueError
  else
    match decimalList coordinates with
    | .ok qs => .ok ⟨qs, error⟩
    | .error e => .error e

/-- `Vector.__eq__(self, v)`: `False` unless `v` is a `Vector` of the
same dimension; otherwise every paired component difference must
satisfy `abs(x - y) <= self.error` — the tolerance of the left
operand. -/
def Vector.beq (self : Vector) (v : PyVal) : Bool :=
  match v with
  | .vec w =>
      if w.dimension ≠ self.dimension then false
      else (List.zip w.coordinates self.coordinates).all
        fun xy => decide (|xy.1 - xy.2| ≤ self.error)
  | _ => false

/-- `Vector.__add__(self, v)`: a `Vector` of equal dimension, or a raw
sequence (`array.array`/`list`/`tuple`) of equal length, is added
componentwise and the sum is passed to `Vector(...)` — hence the result
carries the *default* tolerance; any other operand gives
`NotImplemented`.  A non-numeric item of a raw sequence makes the
componentwise `x + y` raise `TypeError`. -/
def Vector.add (self : Vector) (v : PyVal) : PyOut Vector :=
  match v with
  | .vec w =>
      if w.dimension = self.dimension then
        liftExc (Vector.init
          ((List.zipWith (fun x y => x + y) self.coordinates w.coordinates).map PyVal.num)
          defaultVectorError)
      else .notImpl
  | .arr xs =>
      if xs.length = self.dimension then
        liftExc (Vector.init
          ((List.zipWith (fun x y => x + y) self.coordinates xs).map PyVal.num)
          defaultVectorError)
      else .notImpl
  | .list xs | .tuple xs =>
      if xs.length = self.dimension then
        match decimalList xs with
        | .ok qs =>
            liftExc (Vector.init
              ((List.zipWith (fun x y => x + y) self.coordinates qs).map PyVal.num)
              defaultVectorError)
        | .error _ => .exc .typeError
      else .notImpl
  | _ => .notImpl

/-- `Vector.__sub__(self, v)`: same dispatch as `__add__`, with
componentwise difference; the result is built by `Vector(...)` with the
default tolerance. -/
def Vector.sub (self : Vector) (v : PyVal) : PyOut Vector :=
  match v with
  | .vec w =>
      if w.dimension = self.dimension then
        liftExc (Vector.init
          ((List.zipWith (fun x y => x - y) self.coordinates w.coordinates).map PyVal.num)
          defaultVectorError)
      else .notImpl
  | .arr xs =>
      if xs.length = self.dimension then
        liftExc (Vector.init
          ((List.zipWith (fun x y => x - y) self.coordinates xs).map PyVal.num)
          defaultVectorError)
      else .notImpl
  | .list xs | .tuple xs =>
      if xs.length = self.dimension then
        match decimalList xs with
        | .ok qs =>
            liftExc (Vector.init
              ((List.zipWith (fun x y => x - y) self.coordinates qs).map PyVal.num)
              defaultVectorError)
        | .error _ => .exc .typeError
      else .notImpl
  | _ => .notImpl

/-- `Vector.__mul__(self, v)`: an `int`/`float` scalar multiplies each
component (as `x * Decimal(v)`) and the products are passed to
`Vector(...)` — default tolerance again; otherwise `NotImplemented`. -/
def Vector.mul (self : Vector) (v : PyVal) : PyOut Vector :=
  match v with
  | .num s =>
      liftExc (Vector.init
        ((self.coordinates.map (fun x => x * s)).map PyVal.num)
        defaultVectorError)
  | _ => .notImpl

/-- `Vector.__truediv__(self, v)`: literally `self.__mul__(1.0 / v)` —
the reciprocal is computed first, so `v = 0` raises
`ZeroDivisionError` here and a non-numeric `v` raises `TypeError`. -/
def Vector.truediv (self : Vector) (v : PyVal) : PyOut Vector :=
  match v with
  | .num s => if s = 0 then .exc .zeroDivisionError else self.mul (.num (1 / s))
  | _ => .exc .typeError

/-- The sum of squared components of a `Vector` (the radicand of
`Vector.__abs__`), kept in `ℚ` where it is exact. -/
def Vector.magSq (v : Vector) : ℚ :=
  (v.coordinates.map (fun x => x * x)).sum

/-- `Vector.__abs__` = `Vector.magnitude`:
`sqrt(sum([x ** 2 for x in self.coordinates]))`. -/
noncomputable def Vector.magnitude (v : Vector) : ℝ :=
  Real.sqrt (v.magSq : ℝ)

/-- A vector whose components are reals: the result type of
normalization, whose scaling factor `1/magnitude` is a real number. -/
structure RVector where
  coordinates : List ℝ
  error : ℚ

/-- `Vector.__mul__` with a real scalar (the shape `normalized` uses it
in): each component is scaled and the result is built with the default
tolerance, exactly as in `Vector.mul`. -/
noncomputable def Vector.mulR (v : Vector) (s : ℝ) : RVector :=
  ⟨v.coordinates.map (fun x => (x : ℝ) * s), defaultVectorError⟩

/-- `Vector.normalized(self)`: `self / abs(self)`, catching
`ZeroDivisionError` — raised exactly when the magnitude is `0.0`,
equivalently when the sum of squares `magSq` vanishes — and returning
`Vector([0, 0, 0])` (always 3-dimensional, built with the default
tolerance) in that case. -/
noncomputable def Vector.normalized (v : Vector) : RVector :=
  if v.magSq = 0 then ⟨[0, 0, 0], defaultVectorError⟩
  else v.mulR (1 / v.magnitude)

/-- `ACircle` (entities.py). -/
structure ACircle where
  center : APoint
  radius : ℚ
deriving DecidableEq, Repr

/-- `ACircle.__init__(self, pnt_center, radius)`:
`if pnt_center is None or radius <= 0: raise ValueError(...)`. -/
def ACircle.init (pnt_center : Option APoint) (radius : ℚ) :
    Except PyErr ACircle :=
  match pnt_center with
  | Option.none => .error .valueError
  | some c => if radius ≤ 0 then .error .valueError else .ok ⟨c, radius⟩

/-- `ACircle.diameter(self)`: `self.radius * 2`. -/
def ACircle.diameter (c : ACircle) : ℚ := c.radius * 2

/-- `APolyline.append(self, pnt_or_list)`: `None` is a no-op; an
`APoint` is appended as-is; a `list`/`tuple` of length `>= 2` is passed
to `APoint(pnt_or_list)` and the result appended (for length 3 an
all-numeric sequence converts, but any other length reaches
`array.array('d', (pnt_or_list, 0.0, 0.0))` and raises `TypeError`);
everything else falls through both `if`s and is silently ignored. -/
def APolyline.append (points : List APoint) (pnt_or_list : PyVal) :
    Except PyErr (List APoint) :=
  match pnt_or_list with
  | .none => .ok points
  | .apoint p => .ok (points ++ [p])
  | .list xs =>
      if 2 ≤ xs.length then do
        let p ← APoint.new (.list xs) 0 0
        .ok (points ++ [p])
      else .ok points
  | .tuple xs =>
      if 2 ≤ xs.length then do
        let p ← APoint.new (.tuple xs) 0 0
        .ok (points ++ [p])
      else .ok points
  | _ => .ok points

/-- `APolyline.__init__(self, pnts=None)`: starts with `self.points = []`;
the guard is `pnts is not None and (isinstance(pnts, pnts) or
isinstance(pnts, tuple))`.  Passing `pnts` itself as the classinfo of
`isinstance` raises `TypeError` for every non-`None` argument except a
(nested) tuple of valid classinfos, for which `isinstance(pnts, pnts)`
is `False`, `isinstance(pnts, tuple)` is `True`, and the elements are
then fed to `append`. -/
def APolyline.init (pnts : PyVal) : Except PyErr (List APoint) :=
  match pnts with
  | .none => .ok []
  | .tuple xs =>
      if validClassinfo (.tuple xs) then xs.foldlM APolyline.append []
      else .error .typeError
  | _ => .error .typeError

/-! ## Helper lemmas -/

/-- Python tuple equality of a float tuple against a value sequence
holds exactly for the corresponding sequence of numbers. -/
theorem pySeqEq_iff (ps : List ℚ) (xs : List PyVal) :
    pySeqEq ps xs = true ↔ xs = ps.map PyVal.num := by
  induction ps generalizing xs with
  | nil => cases xs <;> simp [pySeqEq]
  | cons p ps ih =>
      cases xs with
      | nil => simp [pySeqEq]
      | cons x xs =>
          cases x <;> simp [pySeqEq, pyNumEq, ih]
          exact fun _ => eq_comm

/-- Converting a list of numbers with `Decimal` succeeds and is the
identity. -/
theorem decimalList_map_num (qs : List ℚ) :
    decimalList (qs.map PyVal.num) = .ok qs := by
  induction qs with
  | nil => rfl
  | cons q qs ih => simp [decimalList, pyDecimal, ih]

/-- `Decimal` conversion of one item never raises `ValueError`. -/
theorem pyDecimal_no_valueError (x : PyVal) :
    pyDecimal x ≠ .error .valueError := by
  cases x <;> simp [pyDecimal]
  case str s => cases decimalParse s <;> simp

/-- Item conversion in `Vector.__init__` never raises `ValueError`. -/
theorem decimalList_no_valueError (xs : List PyVal) :
    decimalList xs ≠ .error .valueError := by
  induction xs with
  | nil => simp [decimalList]
  | cons x xs ih =>
      rw [decimalList]
      cases hx : pyDecimal x with
      | error e =>
          intro h
          exact pyDecimal_no_valueError x (by rw [hx]; simpa using h)
      | ok q =>
          cases hd : decimalList xs with
          | error e =>
              intro h
              exact ih (by rw [hd]; simpa using h)
          | ok qs => simp

/-- `Vector(...)` applied to a nonempty list of numbers stores the
coordinates and the given tolerance unchanged. -/
theorem Vector.init_map_num (qs : List ℚ) (err : ℚ) (h : qs ≠ []) :
    Vector.init (qs.map PyVal.num) err = .ok ⟨qs, err⟩ := by
  rw [Vector.init, if_neg (by simpa using h), decimalList_map_num]

/-- The radicand of the magnitude is a sum of squares, hence
nonnegative. -/
theorem Vector.magSq_nonneg (v : Vector) : 0 ≤ v.magSq := by
  rw [Vector.magSq]
  apply List.sum_nonneg
  intro x hx
  simp only [List.mem_map] at hx
  obtain ⟨y, _, rfl⟩ := hx
  exact mul_self_nonneg y

/-- The float magnitude vanishes exactly when the exact sum of squares
does (`sqrt` of a nonnegative radicand is zero iff the radicand is). -/
theorem Vector.magnitude_eq_zero_iff (v : Vector) :
    v.magnitude = 0 ↔ v.magSq = 0 := by
  rw [Vector.magnitude,
    Real.sqrt_eq_zero (by exact_mod_cast v.magSq_nonneg)]
  exact_mod_cast Iff.rfl

/-! ## Claims -/

/-- C1: `APolyline.append` on `None` is a no-op and an all-numeric
3-element list is converted and appended, but — contrary to the claim
and to the method's own docstring — the 2-element coordinate list
`[1, 2]` is *not* appended with `z = 0`: `APoint([1, 2])` reaches
`array.array('d', ([1, 2], 0.0, 0.0))` and raises `TypeError`, so the
spec's `[1, 2]`, `[3, 4, 5]`, `None` scenario crashes at its first
step. -/
theorem C1_append_pair_crashes :
    APolyline.append [] (.list [.num 1, .num 2]) = .error .typeError ∧
    APolyline.append [] (.list [.num 3, .num 4, .num 5]) = .ok [⟨3, 4, 5⟩] ∧
    APolyline.append [⟨3, 4, 5⟩] .none = .ok [⟨3, 4, 5⟩] ∧
    APolyline.append [] (.apoint ⟨1, 2, 0⟩) = .ok [⟨1, 2, 0⟩] :=
  ⟨rfl, rfl, rfl, rfl⟩

/-- C2: `APolyline.__init__` evaluates `isinstance(pnts, pnts)`, which
raises `TypeError` for every nonempty list or tuple of points because
the point sequence itself is not a valid classinfo; only the `None`
default yields the documented empty polyline. -/
theorem C2_init_crashes :
    APolyline.init (.list [.apoint ⟨1, 2, 3⟩]) = .error .typeError ∧
    APolyline.init (.tuple [.apoint ⟨1, 2, 3⟩, .apoint ⟨4, 5, 6⟩]) = .error .typeError ∧
    APolyline.init (.tuple [.tuple [.num 1, .num 2, .num 3]]) = .error .typeError ∧
    APolyline.init .none = .ok [] :=
  ⟨rfl, rfl, rfl, rfl⟩

/-- C3 counterexample: the claim says a zero-magnitude vector
normalizes to the zero vector *of the same dimension*; the code always
returns `Vector([0, 0, 0])`, so the 2-dimensional zero vector
normalizes to a vector of a different dimension. -/
theorem C3_counterexample :
    ((Vector.mk [0, 0] defaultVectorError).normalized).coordinates.length ≠
      (Vector.mk [0, 0] defaultVectorError).dimension := by
  rw [Vector.normalized, if_pos (by norm_num [Vector.magSq])]
  norm_num [Vector.dimension]

/-- C3 (amended): for every `Vector`, if the magnitude is exactly zero
then `normalized` returns `Vector([0, 0, 0])` — the 3-dimensional zero
vector, regardless of the input's dimension — without raising; otherwise
`normalized` equals `Mul(1/Magnitude())`. -/
theorem C3_normalized (v : Vector) :
    (v.magnitude = 0 → v.normalized = ⟨[0, 0, 0], defaultVectorError⟩) ∧
    (v.magnitude ≠ 0 → v.normalized = v.mulR (1 / v.magnitude)) := by
  constructor
  · intro h
    rw [Vector.normalized, if_pos (v.magnitude_eq_zero_iff.mp h)]
  · intro h
    rw [Vector.normalized, if_neg (fun hq => h (v.magnitude_eq_zero_iff.mpr hq))]

/-- C3 witness: both branches of `C3_normalized` at concrete vectors. -/
theorem C3_normalized_witness :
    (Vector.mk [0, 0] defaultVectorError).normalized = ⟨[0, 0, 0], defaultVectorError⟩ ∧
    (Vector.mk [3, 4, 0] defaultVectorError).normalized =
      (Vector.mk [3, 4, 0] defaultVectorError).mulR
        (1 / (Vector.mk [3, 4, 0] defaultVectorError).magnitude) := by
  constructor
  · exact (C3_normalized _).1
      (by rw [Vector.magnitude_eq_zero_iff]; norm_num [Vector.magSq])
  · exact (C3_normalized _).2
      (by rw [Ne, Vector.magnitude_eq_zero_iff]; norm_num [Vector.magSq])

/-- C4 counterexample: `Vector(["a"])` raises
`decimal.InvalidOperation` — which propagates past the
`except ValueError` arm — not the input-validation `ValueError` the
claim asserts. -/
theorem C4_counterexample :
    Vector.init [.str "a"] defaultVectorError = .error .invalidOperation ∧
    PyErr.invalidOperation ≠ PyErr.valueError :=
  ⟨rfl, by decide⟩

/-- C4 (amended): `Vector.__init__` raises the input-validation
`ValueError` exactly when the coordinate sequence is empty; an element
that cannot be converted raises `decimal.InvalidOperation` instead
(`Vector(["a"])`), and a nonempty all-numeric sequence constructs the
vector with those coordinates. -/
theorem C4_vector_init (coords : List PyVal) (err : ℚ) :
    (Vector.init coords err = .error .valueError ↔ coords = []) ∧
    (∀ qs : List ℚ, qs ≠ [] → Vector.init (qs.map PyVal.num) err = .ok ⟨qs, err⟩) ∧
    Vector.init [.str "a"] err = .error .invalidOperation := by
  refine ⟨⟨?_, ?_⟩, fun qs h => Vector.init_map_num qs err h, rfl⟩
  · intro h
    by_contra hne
    rw [Vector.init, if_neg (by simpa using hne)] at h
    cases hd : decimalList coords with
    | ok qs => rw [hd] at h; exact Except.noConfusion h
    | error e =>
        rw [hd] at h
        exact decimalList_no_valueError coords (by rw [hd]; simpa using h)
  · rintro rfl; rfl

/-- C4 witness: the nonempty all-numeric branch of `C4_vector_init` at
a concrete input. -/
theorem C4_vector_init_witness :
    Vector.init [.num 3, .num 4] defaultVectorError = .ok ⟨[3, 4], defaultVectorError⟩ :=
  (C4_vector_init [] defaultVectorError).2.1 [3, 4] (by simp)

/-- C5: `ACircle.__init__` raises `ValueError` iff the center is `None`
or the radius is `≤ 0`; every constructed circle satisfies
`diameter() == 2 * radius`, e.g. radius 5 gives diameter 10. -/
theorem C5_circle (c : Option APoint) (r : ℚ) :
    (ACircle.init c r = .error .valueError ↔ c = Option.none ∨ r ≤ 0) ∧
    (∀ circ : ACircle, ACircle.init c r = .ok circ →
      circ.diameter = 2 * circ.radius) ∧
    (ACircle.init (some ⟨0, 0, 0⟩) 5).map ACircle.diameter = .ok 10 := by
  refine ⟨?_, ?_, ?_⟩
  · cases c with
    | none => simp [ACircle.init]
    | some p =>
        by_cases h : r ≤ 0 <;> simp [ACircle.init, h]
  · intro circ _
    rw [ACircle.diameter, mul_comm]
  · norm_num [ACircle.init, ACircle.diameter, Except.map]

/-- C5 witness: `C5_circle` applied at center `(0,0,0)` and radius 5. -/
theorem C5_circle_witness :
    (ACircle.mk ⟨0, 0, 0⟩ 5).diameter = 2 * 5 :=
  (C5_circle (some ⟨0, 0, 0⟩) 5).2.1 ⟨⟨0, 0, 0⟩, 5⟩ (by norm_num [ACircle.init])

/-- C6: `Vector.__eq__` is true exactly for a `Vector` operand of the
same dimension all of whose paired component differences are within the
*left* operand's tolerance; it is false for every non-`Vector` operand,
and it is not symmetric when the two tolerances differ. -/
theorem C6_vector_eq (u w : Vector) :
    (Vector.beq u (.vec w) = true ↔
      w.dimension = u.dimension ∧
        ∀ xy ∈ List.zip w.coordinates u.coordinates, |xy.1 - xy.2| ≤ u.error) ∧
    (∀ x : PyVal, (∀ v : Vector, x ≠ .vec v) → Vector.beq u x = false) ∧
    Vector.beq ⟨[2], 10⟩ (.vec ⟨[0], 1⟩) = true ∧
    Vector.beq ⟨[0], 1⟩ (.vec ⟨[2], 10⟩) = false := by
  refine ⟨?_, ?_, ?_, ?_⟩
  · rw [Vector.beq]
    by_cases h : w.dimension = u.dimension
    · simp [h]
    · simp [h]
  · intro x hx
    cases x <;> simp [Vector.beq]
    case vec v => exact absurd rfl (hx v)
  · norm_num [Vector.beq, Vector.dimension]
  · norm_num [Vector.beq, Vector.dimension]

/-- C6 witness: `C6_vector_eq` at concrete vectors and the non-`Vector`
operand `0`. -/
theorem C6_vector_eq_witness :
    Vector.beq ⟨[1], 1⟩ (.num 0) = false :=
  (C6_vector_eq ⟨[1], 1⟩ ⟨[1], 1⟩).2.1 (.num 0) (fun _ h => PyVal.noConfusion h)

/-- C7: `APoint.__eq__` is exact componentwise equality against any
3-element numeric sequence — another point, a list, a tuple or a raw
double array — and false for a non-sequence operand or a sequence of a
different length (the tuple comparison then fails on length). -/
theorem C7_apoint_eq (p : APoint) :
    (∀ a b c : ℚ, APoint.beq ⟨a, b, c⟩ (.tuple [.num a, .num b, .num c]) = true) ∧
    (∀ xs : List PyVal,
      APoint.beq p (.list xs) = true ↔ xs = [.num p.x, .num p.y, .num p.z]) ∧
    (∀ xs : List PyVal,
      APoint.beq p (.tuple xs) = true ↔ xs = [.num p.x, .num p.y, .num p.z]) ∧
    (∀ q : APoint, APoint.beq p (.apoint q) = true ↔ q = p) ∧
    (∀ xs : List ℚ, APoint.beq p (.arr xs) = true ↔ xs = [p.x, p.y, p.z]) ∧
    APoint.beq p .none = false ∧
    (∀ q : ℚ, APoint.beq p (.num q) = false) ∧
    (∀ s : String, APoint.beq p (.str s) = false) ∧
    (∀ v : Vector, APoint.beq p (.vec v) = false) := by
  refine ⟨?_, ?_, ?_, ?_, ?_, rfl, fun _ => rfl, fun _ => rfl, fun _ => rfl⟩
  · intro a b c
    simp [APoint.beq, APoint.toList, pySeqEq_iff]
  · intro xs
    simp [APoint.beq, APoint.toList, pySeqEq_iff]
  · intro xs
    simp [APoint.beq, APoint.toList, pySeqEq_iff]
  · intro q
    simp [APoint.beq, APoint.toList, pySeqEq_iff, APoint.ext_iff]
  · intro xs
    simp only [APoint.beq, APoint.toList, pySeqEq_iff]
    constructor
    · intro h
      have := List.map_injective_iff.mpr (fun a b hab => PyVal.num.inj hab) h
      simpa using this
    · rintro rfl; rfl

/-- C8: negating a point twice returns a value equal (in the sense of
`APoint.__eq__`) to the original, and `__neg__` is the same operation
as `__mul__(-1)`. -/
theorem C8_double_neg (p : APoint) :
    APoint.beq p.neg.neg (.apoint p) = true ∧
    APoint.mul p (.num (-1)) = .val p.neg := by
  constructor
  · simp [APoint.neg, APoint.beq, APoint.toList, pySeqEq_iff]
  · rfl

/-- C9: `__rsub__` is an alias of `__sub__`, so the reflected
subtraction `s - p` (with `s` a plain 3-element numeric list or tuple)
computes the componentwise `p[i] - s[i]` — the same value as `p - s` —
and not `s[i] - p[i]`. -/
theorem C9_rsub_is_sub (p : APoint) :
    (∀ a b c : ℚ,
      APoint.rsub p (.list [.num a, .num b, .num c]) =
        .val ⟨p.x - a, p.y - b, p.z - c⟩) ∧
    (∀ a b c : ℚ,
      APoint.rsub p (.tuple [.num a, .num b, .num c]) =
        .val ⟨p.x - a, p.y - b, p.z - c⟩) ∧
    APoint.rsub p = APoint.sub p ∧
    APoint.rsub ⟨0, 0, 0⟩ (.list [.num 1, .num 1, .num 1]) = .val ⟨-1, -1, -1⟩ := by
  refine ⟨fun a b c => rfl, fun a b c => rfl, rfl, ?_⟩
  norm_num [APoint.rsub, APoint.sub, APoint.typeCheck, APoint.leftOpSeq, toDouble, liftExc]
  rfl

/-- C10: every `Vector` produced by `__add__`, `__sub__`, `__mul__` or
`__truediv__` is rebuilt through `Vector(...)` and therefore carries the
default tolerance `1e10`, whatever the tolerances of the operands
(`u.error` and `w.error` are arbitrary here). -/
theorem C10_default_error (u w : Vector) (s : ℚ) :
    (u.dimension = w.dimension → u.coordinates ≠ [] →
      Vector.add u (.vec w) =
        .val ⟨List.zipWith (fun x y => x + y) u.coordinates w.coordinates,
          defaultVectorError⟩) ∧
    (u.dimension = w.dimension → u.coordinates ≠ [] →
      Vector.sub u (.vec w) =
        .val ⟨List.zipWith (fun x y => x - y) u.coordinates w.coordinates,
          defaultVectorError⟩) ∧
    (u.coordinates ≠ [] →
      Vector.mul u (.num s) =
        .val ⟨u.coordinates.map (fun x => x * s), defaultVectorError⟩) ∧
    (u.coordinates ≠ [] → s ≠ 0 →
      Vector.truediv u (.num s) =
        .val ⟨u.coordinates.map (fun x => x * (1 / s)), defaultVectorError⟩) := by
  have hzip : ∀ (f : ℚ → ℚ → ℚ), u.dimension = w.dimension → u.coordinates ≠ [] →
      List.zipWith f u.coordinates w.coordinates ≠ [] := by
    intro f hd hne
    rw [Ne, List.zipWith_eq_nil_iff]
    rintro (h | h)
    · exact hne h
    · rw [Vector.dimension, Vector.dimension, h] at hd
      exact hne (List.length_eq_zero.mp (by simpa using hd))
  refine ⟨?_, ?_, ?_, ?_⟩
  · intro hd hne
    rw [Vector.add, if_pos hd.symm,
      Vector.init_map_num _ _ (hzip _ hd hne)]
    rfl
  · intro hd hne
    rw [Vector.sub, if_pos hd.symm,
      Vector.init_map_num _ _ (hzip _ hd hne)]
    rfl
  · intro hne
    rw [Vector.mul, Vector.init_map_num _ _ (by simpa using hne)]
    rfl
  · intro hne hs
    rw [Vector.truediv, if_neg hs, Vector.mul,
      Vector.init_map_num _ _ (by simpa using hne)]
    rfl

/-- C10 witness: `C10_default_error` at concrete operand vectors with
non-default tolerances 5 and 7 and scalar 2: every result carries the
default tolerance `1e10`. -/
theorem C10_default_error_witness :
    Vector.add ⟨[1, 2], 5⟩ (.vec ⟨[3, 4], 7⟩) = .val ⟨[4, 6], defaultVectorError⟩ ∧
    Vector.sub ⟨[1, 2], 5⟩ (.vec ⟨[3, 4], 7⟩) = .val ⟨[-2, -2], defaultVectorError⟩ ∧
    Vector.mul ⟨[1, 2], 5⟩ (.num 2) = .val ⟨[2, 4], defaultVectorError⟩ ∧
    Vector.truediv ⟨[1, 2], 5⟩ (.num 2) = .val ⟨[1/2, 1], defaultVectorError⟩ := by
  have h := C10_default_error ⟨[1, 2], 5⟩ ⟨[3, 4], 7⟩ 2
  refine ⟨?_, ?_, ?_, ?_⟩
  · have h1 := h.1 rfl (by simp)
    rw [h1]; norm_num
  · have h2 := h.2.1 rfl (by simp)
    rw [h2]; norm_num
  · have h3 := h.2.2.1 (by simp)
    rw [h3]; norm_num
  · have h4 := h.2.2.2 (by simp) (by norm_num)
    rw [h4]; norm_num

end PyAutoCAD
